/-
Verification of the go-fitz binding layer against its specification.

The development shallowly embeds the pure Go logic of the repository:
  * the magic-byte format sniffer of fitz_content_types.go (contentType and
    every helper it calls), over byte lists (List UInt8);
  * the document facade of the dynamic-dispatch variant (NewFromMemory,
    ImageDPI, ImagePNG, Text, HTML, SVG, Links, Bound, Metadata, ToC) with
    the native MuPDF engine abstracted as an environment of oracles;
  * the version-negotiation probe of the dispatch layer.

Native calls (fzLoadPage, fzCountPages, fzLookupMetadata, ...) are external
collaborators; they are modelled as fields of explicit environment records.
Float payloads (DPI, page bounds, outline y-offsets) are only passed through
to or from the native side, never computed on; they are carried opaquely.
-/
import Mathlib

namespace GoFitz

/-! ## Byte-level primitives

Go bytes are `UInt8`; Go byte slices are `List UInt8`.  `byteAt b i` is the
value of the in-bounds Go expression `b[i]`; the checked embeddings below use
`b[i]?` instead, so an out-of-bounds access surfaces as `none`. -/

/-- Go `b[i]` for an access that is claimed to be in bounds. -/
def byteAt (b : List UInt8) (i : Nat) : UInt8 :=
  (b[i]?).getD 0

/-! ## Format sniffer: fixed-offset predicates (fitz_content_types.go) -/

/-- `isBMP`: reads `b[0]`, `b[1]`. -/
def isBMP (b : List UInt8) : Bool :=
  byteAt b 0 == 0x42 && byteAt b 1 == 0x4D

/-- `isGIF`: reads `b[0]`..`b[3]`. -/
def isGIF (b : List UInt8) : Bool :=
  byteAt b 0 == 0x47 && byteAt b 1 == 0x49 && byteAt b 2 == 0x46 && byteAt b 3 == 0x38

/-- `isJBIG2`: reads `b[0]`..`b[7]`. -/
def isJBIG2 (b : List UInt8) : Bool :=
  byteAt b 0 == 0x97 && byteAt b 1 == 0x4A && byteAt b 2 == 0x42 && byteAt b 3 == 0x32 &&
  byteAt b 4 == 0x0D && byteAt b 5 == 0x0A && byteAt b 6 == 0x1A && byteAt b 7 == 0x0A

/-- `isJPEG`: reads `b[0]`..`b[2]`. -/
def isJPEG (b : List UInt8) : Bool :=
  byteAt b 0 == 0xFF && byteAt b 1 == 0xD8 && byteAt b 2 == 0xFF

/-- `isJPEG2000`: reads `b[0]`..`b[11]`. -/
def isJPEG2000 (b : List UInt8) : Bool :=
  if byteAt b 0 == 0xFF && byteAt b 1 == 0x4F && byteAt b 2 == 0xFF && byteAt b 3 == 0x51 then
    true
  else
    byteAt b 0 == 0x00 && byteAt b 1 == 0x00 && byteAt b 2 == 0x00 && byteAt b 3 == 0x0C &&
    byteAt b 4 == 0x6A && byteAt b 5 == 0x50 && byteAt b 6 == 0x20 && byteAt b 7 == 0x20 &&
    byteAt b 8 == 0x0D && byteAt b 9 == 0x0A && byteAt b 10 == 0x87 && byteAt b 11 == 0x0A

/-- `isJPEGXR`: reads `b[0]`..`b[2]`. -/
def isJPEGXR (b : List UInt8) : Bool :=
  byteAt b 0 == 0x49 && byteAt b 1 == 0x49 && byteAt b 2 == 0xBC

/-- `isPAM`: reads `b[0]`..`b[2]`. -/
def isPAM (b : List UInt8) : Bool :=
  byteAt b 0 == 0x50 && byteAt b 1 == 0x37 && byteAt b 2 == 0x0A

/-- `isPBM`: reads `b[0]`..`b[2]`. -/
def isPBM (b : List UInt8) : Bool :=
  byteAt b 0 == 0x50 && (byteAt b 1 == 0x31 || byteAt b 1 == 0x34) && byteAt b 2 == 0x0A

/-- `isPFM`: reads `b[0]`..`b[2]`. -/
def isPFM (b : List UInt8) : Bool :=
  byteAt b 0 == 0x50 && (byteAt b 1 == 0x46 || byteAt b 1 == 0x66) && byteAt b 2 == 0x0A

/-- `isPGM`: reads `b[0]`..`b[2]`. -/
def isPGM (b : List UInt8) : Bool :=
  byteAt b 0 == 0x50 && (byteAt b 1 == 0x32 || byteAt b 1 == 0x35) && byteAt b 2 == 0x0A

/-- `isPPM`: reads `b[0]`..`b[2]`. -/
def isPPM (b : List UInt8) : Bool :=
  byteAt b 0 == 0x50 && (byteAt b 1 == 0x33 || byteAt b 1 == 0x36) && byteAt b 2 == 0x0A

/-- `isPNG`: reads `b[0]`..`b[7]`. -/
def isPNG (b : List UInt8) : Bool :=
  byteAt b 0 == 0x89 && byteAt b 1 == 0x50 && byteAt b 2 == 0x4E && byteAt b 3 == 0x47 &&
  byteAt b 4 == 0x0D && byteAt b 5 == 0x0A && byteAt b 6 == 0x1A && byteAt b 7 == 0x0A

/-- `isTIFF`: reads `b[0]`..`b[3]`. -/
def isTIFF (b : List UInt8) : Bool :=
  (byteAt b 0 == 0x49 && byteAt b 1 == 0x49 && byteAt b 2 == 0x2A && byteAt b 3 == 0x00) ||
  (byteAt b 0 == 0x4D && byteAt b 1 == 0x4D && byteAt b 2 == 0x00 && byteAt b 3 == 0x2A)

/-- `isPDF`: PDF magic `%PDF`, reads `b[0]`..`b[3]`. -/
def isPDF (b : List UInt8) : Bool :=
  byteAt b 0 == 0x25 && byteAt b 1 == 0x50 && byteAt b 2 == 0x44 && byteAt b 3 == 0x46

/-- `isPSD`: magic `8BPS`, reads `b[0]`..`b[3]`. -/
def isPSD (b : List UInt8) : Bool :=
  byteAt b 0 == 0x38 && byteAt b 1 == 0x42 && byteAt b 2 == 0x50 && byteAt b 3 == 0x53

/-- `isZIP`: non-empty ZIP magic `PK\x03\x04`, reads `b[0]`..`b[3]`. -/
def isZIP (b : List UInt8) : Bool :=
  byteAt b 0 == 0x50 && byteAt b 1 == 0x4B && byteAt b 2 == 0x03 && byteAt b 3 == 0x04

/-- `isEPUB`: `mimetype` + `application/epub+zip` at offsets 30..57. -/
def isEPUB (b : List UInt8) : Bool :=
  byteAt b 30 == 0x6D && byteAt b 31 == 0x69 && byteAt b 32 == 0x6D && byteAt b 33 == 0x65 &&
  byteAt b 34 == 0x74 && byteAt b 35 == 0x79 && byteAt b 36 == 0x70 && byteAt b 37 == 0x65 &&
  byteAt b 38 == 0x61 && byteAt b 39 == 0x70 && byteAt b 40 == 0x70 && byteAt b 41 == 0x6C &&
  byteAt b 42 == 0x69 && byteAt b 43 == 0x63 && byteAt b 44 == 0x61 && byteAt b 45 == 0x74 &&
  byteAt b 46 == 0x69 && byteAt b 47 == 0x6F && byteAt b 48 == 0x6E && byteAt b 49 == 0x2F &&
  byteAt b 50 == 0x65 && byteAt b 51 == 0x70 && byteAt b 52 == 0x75 && byteAt b 53 == 0x62 &&
  byteAt b 54 == 0x2B && byteAt b 55 == 0x7A && byteAt b 56 == 0x69 && byteAt b 57 == 0x70

/-- `isMOBI`: its own length check, then reads `b[60]`..`b[67]`. -/
def isMOBI (b : List UInt8) : Bool :=
  if b.length < 78 then false
  else if byteAt b 60 == 0x42 && byteAt b 61 == 0x4F && byteAt b 62 == 0x4F &&
          byteAt b 63 == 0x4B && byteAt b 64 == 0x4D && byteAt b 65 == 0x4F &&
          byteAt b 66 == 0x42 && byteAt b 67 == 0x49 then true
  else if byteAt b 60 == 0x54 && byteAt b 61 == 0x45 && byteAt b 62 == 0x58 &&
          byteAt b 63 == 0x74 && byteAt b 64 == 0x52 && byteAt b 65 == 0x45 &&
          byteAt b 66 == 0x41 && byteAt b 67 == 0x64 then true
  else false

/-- `isXPS`: `[Content_Types].xml` at offsets 30..48. -/
def isXPS (b : List UInt8) : Bool :=
  byteAt b 30 == 0x5B && byteAt b 31 == 0x43 && byteAt b 32 == 0x6F && byteAt b 33 == 0x6E &&
  byteAt b 34 == 0x74 && byteAt b 35 == 0x65 && byteAt b 36 == 0x6E && byteAt b 37 == 0x74 &&
  byteAt b 38 == 0x5F && byteAt b 39 == 0x54 && byteAt b 40 == 0x79 && byteAt b 41 == 0x70 &&
  byteAt b 42 == 0x65 && byteAt b 43 == 0x73 && byteAt b 44 == 0x5D && byteAt b 45 == 0x2E &&
  byteAt b 46 == 0x78 && byteAt b 47 == 0x6D && byteAt b 48 == 0x6C

/-- `isXML`: `<?xml` with or without a UTF-8 BOM, reads `b[0]`..`b[7]`. -/
def isXML (b : List UInt8) : Bool :=
  if byteAt b 0 == 0x3C && byteAt b 1 == 0x3F && byteAt b 2 == 0x78 &&
     byteAt b 3 == 0x6D && byteAt b 4 == 0x6C then true
  else
    byteAt b 0 == 0xEF && byteAt b 1 == 0xBB && byteAt b 2 == 0xBF && byteAt b 3 == 0x3C &&
    byteAt b 4 == 0x3F && byteAt b 5 == 0x78 && byteAt b 6 == 0x6D && byteAt b 7 == 0x6C

/-! ## Format sniffer: OOXML disambiguation (msooxml and helpers) -/

/-- The Go `docType`; `zero` is the zero value of the naked `return`. -/
inductive DocType where
  | zero | docx | xlsx | pptx | ooxml
deriving DecidableEq, Repr

/-- ASCII bytes of `"word/"`. -/
def wordSlash : List UInt8 := [0x77, 0x6F, 0x72, 0x64, 0x2F]

/-- ASCII bytes of `"ppt/"`. -/
def pptSlash : List UInt8 := [0x70, 0x70, 0x74, 0x2F]

/-- ASCII bytes of `"xl/"`. -/
def xlSlash : List UInt8 := [0x78, 0x6C, 0x2F]

/-- ASCII bytes of `"[Content_Types].xml"`. -/
def contentTypesXml : List UInt8 :=
  [0x5B, 0x43, 0x6F, 0x6E, 0x74, 0x65, 0x6E, 0x74, 0x5F, 0x54,
   0x79, 0x70, 0x65, 0x73, 0x5D, 0x2E, 0x78, 0x6D, 0x6C]

/-- ASCII bytes of `"_rels/.rels"`. -/
def relsDotRels : List UInt8 :=
  [0x5F, 0x72, 0x65, 0x6C, 0x73, 0x2F, 0x2E, 0x72, 0x65, 0x6C, 0x73]

/-- ASCII bytes of `"docProps"`. -/
def docProps : List UInt8 := [0x64, 0x6F, 0x63, 0x50, 0x72, 0x6F, 0x70, 0x73]

/-- ASCII bytes of `"_rels"`. -/
def relsDir : List UInt8 := [0x5F, 0x72, 0x65, 0x6C, 0x73]

/-- The ZIP local-file-header signature `PK\x03\x04`. -/
def pkSignature : List UInt8 := [0x50, 0x4B, 0x03, 0x04]

/-- `compareBytes(slice, subSlice, startOffset)`: bounds-guarded window
comparison; the guard returns `false` when the window overruns the end. -/
def compareBytes (slice subSlice : List UInt8) (startOffset : Int) : Bool :=
  let sl := subSlice.length
  if startOffset + (sl : Int) > (slice.length : Int) then false
  else subSlice == (slice.drop startOffset.toNat).take sl

/-- Go `bytes.Index(hay, needle)`: index of the first occurrence, `-1` if
absent, `0` for an empty needle. -/
def bytesIndex (hay needle : List UInt8) : Int :=
  go hay 0
where
  /-- Scan cursor: try a match at the current index, else advance. -/
  go : List UInt8 → Nat → Int
    | [], i => if needle.isEmpty then (i : Int) else -1
    | c :: t, i => if needle.isPrefixOf (c :: t) then (i : Int) else go t (i + 1)

/-- `search(buf, start, rangeNum)`: find the next `PK\x03\x04` inside the
clipped window `buf[start:min(start+rangeNum, len)]`. -/
def search (buf : List UInt8) (start rangeNum : Int) : Int :=
  let length : Int := buf.length
  let stop := if start + rangeNum > length then length else start + rangeNum
  if start ≥ stop then -1
  else bytesIndex ((buf.drop start.toNat).take (stop - start).toNat) pkSignature

/-- `binary.LittleEndian.Uint32(buf[18:22])`. -/
def leUint32At18 (buf : List UInt8) : UInt32 :=
  (byteAt buf 18).toUInt32 |||
  (byteAt buf 19).toUInt32 <<< 8 |||
  (byteAt buf 20).toUInt32 <<< 16 |||
  (byteAt buf 21).toUInt32 <<< 24

/-- `checkMSOoml(buf, offset)`: classify a local-file entry name by its
subdirectory component. -/
def checkMSOoml (buf : List UInt8) (offset : Int) : DocType × Bool :=
  if compareBytes buf wordSlash offset then (DocType.docx, true)
  else if compareBytes buf pptSlash offset then (DocType.pptx, true)
  else if compareBytes buf xlSlash offset then (DocType.xlsx, true)
  else (DocType.zero, false)

/-- Tail of `msooxml` from the fourth local file header: classify its name,
else settle for generic OOXML. -/
def msooxmlFourth (buf : List UInt8) (startOffset : Int) : DocType × Bool :=
  let r := checkMSOoml buf startOffset
  if r.2 then r else (DocType.ooxml, true)

/-- Tail of `msooxml` from the third local file header's name: classify it,
else scan on for the fourth (OpenOffice/LibreOffice entry order). -/
def msooxmlThird (buf : List UInt8) (startOffset : Int) : DocType × Bool :=
  let r := checkMSOoml buf startOffset
  if r.2 then r
  else
    let so := startOffset + 26
    let idx := search buf so 6000
    if idx = -1 then (DocType.ooxml, true)
    else msooxmlFourth buf (so + idx + 4 + 26)

/-- Tail of `msooxml` after the name guards: scan for the second and third
local file headers (extra fields may follow each header). -/
def msooxmlScan (buf : List UInt8) (startOffset : Int) : DocType × Bool :=
  let idx := search buf startOffset 6000
  if idx = -1 then (DocType.zero, false)
  else
    let so2 := startOffset + idx + 4 + 26
    let idx2 := search buf so2 6000
    if idx2 = -1 then (DocType.zero, false)
    else msooxmlThird buf (so2 + idx2 + 4 + 26)

/-- `msooxml(buf)`: walk up to three further ZIP local file headers to
disambiguate DOCX/XLSX/PPTX/generic OOXML. -/
def msooxml (buf : List UInt8) : DocType × Bool :=
  let first := checkMSOoml buf 0x1E
  if first.2 then first
  else
    if ¬ compareBytes buf contentTypesXml 0x1E ∧ ¬ compareBytes buf relsDotRels 0x1E ∧
       ¬ compareBytes buf docProps 0x1E ∧ ¬ compareBytes buf relsDir 0x1E then
      (DocType.zero, false)
    else
      msooxmlScan buf ((leUint32At18 buf + 49).toNat : Int)

/-- `isDOCX`. -/
def isDOCX (buf : List UInt8) : Bool :=
  let r := msooxml buf
  r.2 && r.1 == DocType.docx

/-- `isXLSX`. -/
def isXLSX (buf : List UInt8) : Bool :=
  let r := msooxml buf
  r.2 && r.1 == DocType.xlsx

/-- `isPPTX`. -/
def isPPTX (buf : List UInt8) : Bool :=
  let r := msooxml buf
  r.2 && r.1 == DocType.pptx

/-! ## Format sniffer: SVG state machine (isSVG)

The Go code drives a `bytes.Reader` through labelled states
(`ParseSVGText`, `ParseSVGElement`, `ParseSVGComment`); every iteration
consumes exactly one byte (the three-byte `svg` literal is split into
micro-states), so a fuel of `length + 1` always suffices. -/

/-- Parser states of `isSVG`; `elemS`/`elemV`/`elemG` are the positions
inside the `svg` literal match of `ParseSVGElement`. -/
inductive SvgPhase where
  | text | elemS | elemV | elemG | comment
deriving DecidableEq, Repr

/-- One-step outcome: a final answer or a successor state. -/
inductive SvgOut where
  | done (b : Bool)
  | more (ph : SvgPhase) (rest : List UInt8)
deriving DecidableEq, Repr

/-- One `ReadByte` step of the `isSVG` state machine; end-of-buffer always
answers `false`. -/
def svgStep : SvgPhase → List UInt8 → SvgOut
  | .text, [] => .done false
  | .text, c :: r =>
    if c == 0x09 || c == 0x0A || c == 0x0D || c == 0x20 then .more .text r
    else if c == 0x3C then .more .elemS r
    else .done false
  | .elemS, [] => .done false
  | .elemS, c :: r =>
    if c == 0x21 || c == 0x3F then .more .comment r
    else if c != 0x73 then .done false
    else .more .elemV r
  | .elemV, [] => .done false
  | .elemV, c :: r => if c == 0x76 then .more .elemG r else .done false
  | .elemG, [] => .done false
  | .elemG, c :: _ => .done (c == 0x67)
  | .comment, [] => .done false
  | .comment, c :: r => if c == 0x3E then .more .text r else .more .comment r

/-- Run the `isSVG` machine under explicit fuel. -/
def svgRun : Nat → SvgPhase → List UInt8 → Option Bool
  | 0, _, _ => none
  | fuel + 1, ph, bs =>
    match svgStep ph bs with
    | .done b => some b
    | .more ph' bs' => svgRun fuel ph' bs'

/-- The BOM strip at the top of `isSVG`: drop two bytes after `0xEF 0xBB`. -/
def svgStripBOM (b : List UInt8) : List UInt8 :=
  if byteAt b 0 == 0xEF && byteAt b 1 == 0xBB then b.drop 2 else b

/-- `isSVG`: check for `<svg` after whitespace, XML prologs and comments. -/
def isSVG (b : List UInt8) : Bool :=
  let s := svgStripBOM b
  (svgRun (s.length + 1) .text s).getD false

/-! ## Format sniffer: contentType -/

/-- `contentType(b)`: the document MIME type, `""` when unknown; checks are
ordered by the minimum length needed for their reads. -/
def contentType (b : List UInt8) : String :=
  let l := b.length
  if l < 8 then ""
  else if isPAM b then "image/x-portable-arbitrarymap"
  else if isPBM b then "image/x-portable-bitmap"
  else if isPFM b then "image/x-portable-floatmap"
  else if isPGM b then "image/x-portable-greymap"
  else if isPPM b then "image/x-portable-pixmap"
  else if isGIF b then "image/gif"
  else if l < 16 then ""
  else if isBMP b then "image/bmp"
  else if isJBIG2 b then "image/x-jb2"
  else if l < 32 then ""
  else if isTIFF b then "image/tiff"
  else if isSVG b then "image/svg+xml"
  else if l < 64 then ""
  else if isJPEG b then "image/jpeg"
  else if isPNG b then "image/png"
  else if isJPEG2000 b then "image/jp2"
  else if isJPEGXR b then "image/vnd.ms-photo"
  else if isPDF b then "application/pdf"
  else if isPSD b then "image/vnd.adobe.photoshop"
  else if isZIP b then
    if isDOCX b then
      "application/vnd.openxmlformats-officedocument.wordprocessingml.document"
    else if isXLSX b then
      "application/vnd.openxmlformats-officedocument.spreadsheetml.sheet"
    else if isPPTX b then
      "application/vnd.openxmlformats-officedocument.presentationml.presentation"
    else if isEPUB b then "application/epub+zip"
    else if isXPS b then "application/oxps"
    else "application/zip"
  else if isXML b then "text/xml"
  else if isMOBI b then "application/x-mobipocket-ebook"
  else ""

/-! ## Format sniffer: bounds-instrumented twin

Every raw Go index `b[i]` would panic out of bounds.  The `...c` twins make
each predicate's reads explicit: a predicate reading contiguous indices up to
`m` is guarded by `b[m]?` (for a list, index `m` in bounds puts every lower
index in bounds); `compareBytes`/`search` keep their own guards, with `none`
exactly where the Go slice expression would panic (negative start).  `C10`
proves the instrumented sniffer never returns `none` and agrees with
`contentType`. -/

/-- Demand index `maxIdx` in bounds (hence all lower reads), then answer `v`. -/
def guarded (b : List UInt8) (maxIdx : Nat) (v : Bool) : Option Bool :=
  (b[maxIdx]?).map fun _ => v

/-- Demand index `m` in bounds, then continue with `k`. -/
def guardIdx {α : Type} (b : List UInt8) (m : Nat) (k : Option α) : Option α :=
  (b[m]?).bind fun _ => k

/-- Instrumented `isPAM` (reads `b[0]`..`b[2]`). -/
def isPAMc (b : List UInt8) : Option Bool := guarded b 2 (isPAM b)

/-- Instrumented `isPBM` (reads `b[0]`..`b[2]`). -/
def isPBMc (b : List UInt8) : Option Bool := guarded b 2 (isPBM b)

/-- Instrumented `isPFM` (reads `b[0]`..`b[2]`). -/
def isPFMc (b : List UInt8) : Option Bool := guarded b 2 (isPFM b)

/-- Instrumented `isPGM` (reads `b[0]`..`b[2]`). -/
def isPGMc (b : List UInt8) : Option Bool := guarded b 2 (isPGM b)

/-- Instrumented `isPPM` (reads `b[0]`..`b[2]`). -/
def isPPMc (b : List UInt8) : Option Bool := guarded b 2 (isPPM b)

/-- Instrumented `isGIF` (reads `b[0]`..`b[3]`). -/
def isGIFc (b : List UInt8) : Option Bool := guarded b 3 (isGIF b)

/-- Instrumented `isBMP` (reads `b[0]`..`b[1]`). -/
def isBMPc (b : List UInt8) : Option Bool := guarded b 1 (isBMP b)

/-- Instrumented `isJBIG2` (reads `b[0]`..`b[7]`). -/
def isJBIG2c (b : List UInt8) : Option Bool := guarded b 7 (isJBIG2 b)

/-- Instrumented `isTIFF` (reads `b[0]`..`b[3]`). -/
def isTIFFc (b : List UInt8) : Option Bool := guarded b 3 (isTIFF b)

/-- Instrumented `isSVG`: the BOM check reads `b[0]`, `b[1]`; the reader loop
is bounded by construction. -/
def isSVGc (b : List UInt8) : Option Bool := guarded b 1 (isSVG b)

/-- Instrumented `isJPEG` (reads `b[0]`..`b[2]`). -/
def isJPEGc (b : List UInt8) : Option Bool := guarded b 2 (isJPEG b)

/-- Instrumented `isPNG` (reads `b[0]`..`b[7]`). -/
def isPNGc (b : List UInt8) : Option Bool := guarded b 7 (isPNG b)

/-- Instrumented `isJPEG2000` (reads `b[0]`..`b[11]`). -/
def isJPEG2000c (b : List UInt8) : Option Bool := guarded b 11 (isJPEG2000 b)

/-- Instrumented `isJPEGXR` (reads `b[0]`..`b[2]`). -/
def isJPEGXRc (b : List UInt8) : Option Bool := guarded b 2 (isJPEGXR b)

/-- Instrumented `isPDF` (reads `b[0]`..`b[3]`). -/
def isPDFc (b : List UInt8) : Option Bool := guarded b 3 (isPDF b)

/-- Instrumented `isPSD` (reads `b[0]`..`b[3]`). -/
def isPSDc (b : List UInt8) : Option Bool := guarded b 3 (isPSD b)

/-- Instrumented `isZIP` (reads `b[0]`..`b[3]`). -/
def isZIPc (b : List UInt8) : Option Bool := guarded b 3 (isZIP b)

/-- Instrumented `isEPUB` (reads `b[30]`..`b[57]`). -/
def isEPUBc (b : List UInt8) : Option Bool := guarded b 57 (isEPUB b)

/-- Instrumented `isXPS` (reads `b[30]`..`b[48]`). -/
def isXPSc (b : List UInt8) : Option Bool := guarded b 48 (isXPS b)

/-- Instrumented `isXML` (reads `b[0]`..`b[7]`). -/
def isXMLc (b : List UInt8) : Option Bool := guarded b 7 (isXML b)

/-- Instrumented `isMOBI`: its own length guard precedes every read. -/
def isMOBIc (b : List UInt8) : Option Bool :=
  if b.length < 78 then some false else guarded b 67 (isMOBI b)

/-- Instrumented `compareBytes`: `none` where `slice[startOffset:...]` would
panic on a negative start not caught by the window guard. -/
def compareBytesC (slice subSlice : List UInt8) (startOffset : Int) : Option Bool :=
  let sl := subSlice.length
  if startOffset + (sl : Int) > (slice.length : Int) then some false
  else if startOffset < 0 then none
  else some (subSlice == (slice.drop startOffset.toNat).take sl)

/-- Instrumented `search`: `none` where `buf[start:stop]` would panic. -/
def searchC (buf : List UInt8) (start rangeNum : Int) : Option Int :=
  let length : Int := buf.length
  let stop := if start + rangeNum > length then length else start + rangeNum
  if start ≥ stop then some (-1)
  else if start < 0 then none
  else some (bytesIndex ((buf.drop start.toNat).take (stop - start).toNat) pkSignature)

/-- Instrumented `checkMSOoml`. -/
def checkMSOomlC (buf : List UInt8) (offset : Int) : Option (DocType × Bool) :=
  (compareBytesC buf wordSlash offset).bind fun w =>
  if w then some (DocType.docx, true) else
  (compareBytesC buf pptSlash offset).bind fun p =>
  if p then some (DocType.pptx, true) else
  (compareBytesC buf xlSlash offset).bind fun x =>
  if x then some (DocType.xlsx, true) else
  some (DocType.zero, false)

/-- Instrumented `msooxmlFourth`. -/
def msooxmlFourthC (buf : List UInt8) (startOffset : Int) : Option (DocType × Bool) :=
  (checkMSOomlC buf startOffset).bind fun r =>
  if r.2 then some r else some (DocType.ooxml, true)

/-- Instrumented `msooxmlThird`. -/
def msooxmlThirdC (buf : List UInt8) (startOffset : Int) : Option (DocType × Bool) :=
  (checkMSOomlC buf startOffset).bind fun r =>
  if r.2 then some r
  else
    let so := startOffset + 26
    (searchC buf so 6000).bind fun idx =>
    if idx = -1 then some (DocType.ooxml, true)
    else msooxmlFourthC buf (so + idx + 4 + 26)

/-- Instrumented `msooxmlScan`. -/
def msooxmlScanC (buf : List UInt8) (startOffset : Int) : Option (DocType × Bool) :=
  (searchC buf startOffset 6000).bind fun idx =>
  if idx = -1 then some (DocType.zero, false)
  else
    let so2 := startOffset + idx + 4 + 26
    (searchC buf so2 6000).bind fun idx2 =>
    if idx2 = -1 then some (DocType.zero, false)
    else msooxmlThirdC buf (so2 + idx2 + 4 + 26)

/-- Instrumented `msooxml`: `buf[21]?` guards the `buf[18:22]` read of
`binary.LittleEndian.Uint32`. -/
def msooxmlC (buf : List UInt8) : Option (DocType × Bool) :=
  (checkMSOomlC buf 0x1E).bind fun first =>
  if first.2 then some first
  else
    (compareBytesC buf contentTypesXml 0x1E).bind fun c1 =>
    (compareBytesC buf relsDotRels 0x1E).bind fun c2 =>
    (compareBytesC buf docProps 0x1E).bind fun c3 =>
    (compareBytesC buf relsDir 0x1E).bind fun c4 =>
    if ¬ c1 ∧ ¬ c2 ∧ ¬ c3 ∧ ¬ c4 then some (DocType.zero, false)
    else
      guardIdx buf 21 (msooxmlScanC buf ((leUint32At18 buf + 49).toNat : Int))

/-- Instrumented `isDOCX`. -/
def isDOCXc (buf : List UInt8) : Option Bool :=
  (msooxmlC buf).map fun r => r.2 && r.1 == DocType.docx

/-- Instrumented `isXLSX`. -/
def isXLSXc (buf : List UInt8) : Option Bool :=
  (msooxmlC buf).map fun r => r.2 && r.1 == DocType.xlsx

/-- Instrumented `isPPTX`. -/
def isPPTXc (buf : List UInt8) : Option Bool :=
  (msooxmlC buf).map fun r => r.2 && r.1 == DocType.pptx

/-- Bounds-checked short-circuit: evaluate the instrumented test, answer `y`
on success, otherwise continue with `n`. -/
def orElseC (test : Option Bool) (y : String) (n : Option String) : Option String :=
  test.bind fun c => cond c (some y) n

/-- Instrumented inner ZIP switch of `contentType`. -/
def zipKindC (b : List UInt8) : Option String :=
  orElseC (isDOCXc b)
    "application/vnd.openxmlformats-officedocument.wordprocessingml.document" <|
  orElseC (isXLSXc b)
    "application/vnd.openxmlformats-officedocument.spreadsheetml.sheet" <|
  orElseC (isPPTXc b)
    "application/vnd.openxmlformats-officedocument.presentationml.presentation" <|
  orElseC (isEPUBc b) "application/epub+zip" <|
  orElseC (isXPSc b) "application/oxps" <|
  some "application/zip"

/-- Instrumented `contentType`: every helper's reads are bounds-checked. -/
def contentTypeC (b : List UInt8) : Option String :=
  let l := b.length
  if l < 8 then some "" else
  orElseC (isPAMc b) "image/x-portable-arbitrarymap" <|
  orElseC (isPBMc b) "image/x-portable-bitmap" <|
  orElseC (isPFMc b) "image/x-portable-floatmap" <|
  orElseC (isPGMc b) "image/x-portable-greymap" <|
  orElseC (isPPMc b) "image/x-portable-pixmap" <|
  orElseC (isGIFc b) "image/gif" <|
  if l < 16 then some "" else
  orElseC (isBMPc b) "image/bmp" <|
  orElseC (isJBIG2c b) "image/x-jb2" <|
  if l < 32 then some "" else
  orElseC (isTIFFc b) "image/tiff" <|
  orElseC (isSVGc b) "image/svg+xml" <|
  if l < 64 then some "" else
  orElseC (isJPEGc b) "image/jpeg" <|
  orElseC (isPNGc b) "image/png" <|
  orElseC (isJPEG2000c b) "image/jp2" <|
  orElseC (isJPEGXRc b) "image/vnd.ms-photo" <|
  orElseC (isPDFc b) "application/pdf" <|
  orElseC (isPSDc b) "image/vnd.adobe.photoshop" <|
  (isZIPc b).bind fun c17 =>
  cond c17 (zipKindC b) <|
  orElseC (isXMLc b) "text/xml" <|
  orElseC (isMOBIc b) "application/x-mobipocket-ebook" <|
  some ""

/-! ## Document facade (dynamic-dispatch variant)

The native engine is abstracted as an environment `FzEnv` of oracles, one
per `fz_*` entry point the Go code consults.  Pointer results are modelled
as `Bool` ("non-nil") or data; the singly-linked `fz_link` list is a
`List String` of its `Uri` fields in `Next`-order; float payloads are carried
opaquely as `Int` stand-ins (they are never computed on by the Go code). -/

/-- The package-level error values of fitz.go. -/
inductive GoErr where
  | noSuchFile | createContext | openDocument | emptyBytes | openMemory
  | loadPage | runPageContents | pageMissing | createPixmap | pixmapSamples
  | needsPassword | loadOutline
deriving DecidableEq, Repr

/-- Oracles for the native calls made by `Document` methods. -/
structure FzEnv where
  /-- `fz_new_context_imp` returns non-nil. -/
  ctxOk : Bool
  /-- `fz_open_memory` returns non-nil. -/
  openMemoryOk : Bool
  /-- `fz_open_document_with_stream` returns non-nil. -/
  openDocStreamOk : Bool
  /-- `fz_needs_password` on the opened document returns non-zero. -/
  needsPwd : Bool
  /-- `fz_needs_password` outcome when called with a nil document (the Go
  code reaches this call even after `fz_open_document_with_stream` failed). -/
  needsPwdNil : Bool
  /-- `fz_count_pages`. -/
  numPage : Int
  /-- `fz_load_page` returns non-nil for the given page number. -/
  loadPageOk : Int → Bool
  /-- `fz_new_pixmap` returns non-nil. -/
  newPixmapOk : Bool
  /-- `fz_pixmap_samples` returns non-nil. -/
  samplesOk : Bool
  /-- `fz_load_links`: the `Uri` fields of the native link list, in
  `Next`-order. -/
  pageLinks : Int → List String
  /-- Extracted plain text of a page (result of the stext pipeline). -/
  pageText : Int → String
  /-- Extracted HTML of a page, given the header flag. -/
  pageHTML : Int → Bool → String
  /-- Extracted SVG of a page. -/
  pageSVG : Int → String
  /-- `fz_bound_page` corners after the Go `int(...)` conversions. -/
  pageBound : Int → Int × Int × Int × Int
  /-- Raster output of the pixmap pipeline for `ImageDPI`/`ImagePNG`. -/
  pageImage : Int → List UInt8

/-- `NewFromMemory(b)`: the error result (`none` means success).  Mirrors the
purego variant: the empty-input check, context creation, `fz_open_memory`,
the content-type sniff (whose failure reuses `ErrOpenMemory`), document open
(whose failure does not return early), and the password check. -/
def NewFromMemory (env : FzEnv) (b : List UInt8) : Option GoErr :=
  if b.length = 0 then some GoErr.emptyBytes
  else if ¬ env.ctxOk then some GoErr.createContext
  else if ¬ env.openMemoryOk then some GoErr.openMemory
  else if contentType b = "" then some GoErr.openMemory
  else if ¬ env.openDocStreamOk then
    -- err = ErrOpenDocument, then fz_needs_password still runs (nil doc)
    if env.needsPwdNil then some GoErr.needsPassword else some GoErr.openDocument
  else if env.needsPwd then some GoErr.needsPassword
  else none

/-! Each page-level operation returns its Go result paired with the trace of
page numbers passed to `fz_load_page` — the native page accesses the claims
reason about. -/

/-- `ImageDPI(pageNumber, dpi)`.  `dpi` only feeds the native scale call,
which the environment abstracts; it is carried as an opaque rational. -/
def ImageDPI (env : FzEnv) (pageNumber : Int) (_dpi : ℚ) :
    Except GoErr (List UInt8) × List Int :=
  if pageNumber ≥ env.numPage then (Except.error GoErr.pageMissing, [])
  else if ¬ env.loadPageOk pageNumber then (Except.error GoErr.loadPage, [pageNumber])
  else if ¬ env.newPixmapOk then (Except.error GoErr.createPixmap, [pageNumber])
  else if ¬ env.samplesOk then (Except.error GoErr.pixmapSamples, [pageNumber])
  else (Except.ok (env.pageImage pageNumber), [pageNumber])

/-- `ImagePNG(pageNumber, dpi)`. -/
def ImagePNG (env : FzEnv) (pageNumber : Int) (_dpi : ℚ) :
    Except GoErr (List UInt8) × List Int :=
  if pageNumber ≥ env.numPage then (Except.error GoErr.pageMissing, [])
  else if ¬ env.loadPageOk pageNumber then (Except.error GoErr.loadPage, [pageNumber])
  else if ¬ env.newPixmapOk then (Except.error GoErr.createPixmap, [pageNumber])
  else (Except.ok (env.pageImage pageNumber), [pageNumber])

/-- `Text(pageNumber)`. -/
def Text (env : FzEnv) (pageNumber : Int) : Except GoErr String × List Int :=
  if pageNumber ≥ env.numPage then (Except.error GoErr.pageMissing, [])
  else if ¬ env.loadPageOk pageNumber then (Except.error GoErr.loadPage, [pageNumber])
  else (Except.ok (env.pageText pageNumber), [pageNumber])

/-- `HTML(pageNumber, header)`. -/
def HTML (env : FzEnv) (pageNumber : Int) (header : Bool) :
    Except GoErr String × List Int :=
  if pageNumber ≥ env.numPage then (Except.error GoErr.pageMissing, [])
  else if ¬ env.loadPageOk pageNumber then (Except.error GoErr.loadPage, [pageNumber])
  else (Except.ok (env.pageHTML pageNumber header), [pageNumber])

/-- `SVG(pageNumber)`. -/
def SVG (env : FzEnv) (pageNumber : Int) : Except GoErr String × List Int :=
  if pageNumber ≥ env.numPage then (Except.error GoErr.pageMissing, [])
  else if ¬ env.loadPageOk pageNumber then (Except.error GoErr.loadPage, [pageNumber])
  else (Except.ok (env.pageSVG pageNumber), [pageNumber])

/-- `Bound(pageNumber)`. -/
def Bound (env : FzEnv) (pageNumber : Int) :
    Except GoErr (Int × Int × Int × Int) × List Int :=
  if pageNumber ≥ env.numPage then (Except.error GoErr.pageMissing, [])
  else if ¬ env.loadPageOk pageNumber then (Except.error GoErr.loadPage, [pageNumber])
  else (Except.ok (env.pageBound pageNumber), [pageNumber])

/-- The counting pass of `Links`: walk the native list via `Next`. -/
def countLinks : List String → Nat
  | [] => 0
  | _ :: t => countLinks t + 1

/-- The copy pass of `Links`: read `gLinks[i] = currLink.Uri` for
`i < linkCount`, following `Next`; `none` models the nil dereference the Go
loop would hit if the count exceeded the list length. -/
def copyLinks : Nat → List String → Option (List String)
  | 0, _ => some []
  | _ + 1, [] => none
  | n + 1, u :: t => (copyLinks n t).map (u :: ·)

/-- `Links(pageNumber)`: count pass, exact-size allocation, copy pass; a nil
Go slice and an empty list are identified (`len(nil) = 0`). -/
def Links (env : FzEnv) (pageNumber : Int) : Except GoErr (List String) × List Int :=
  if pageNumber ≥ env.numPage then (Except.error GoErr.pageMissing, [])
  else if ¬ env.loadPageOk pageNumber then (Except.error GoErr.loadPage, [pageNumber])
  else
    let links := env.pageLinks pageNumber
    let linkCount := countLinks links
    if linkCount = 0 then (Except.ok [], [pageNumber])
    else (Except.ok ((copyLinks linkCount links).getD []), [pageNumber])

/-! ## Metadata -/

/-- Oracle for `fz_lookup_metadata`: the bytes the native call writes at the
start of the 256-byte buffer for a given key (nothing for a missing key). -/
structure MetaEnv where
  /-- Bytes written into the lookup buffer for a key. -/
  metaWrite : String → List UInt8

/-- The `lookup` closure of `Metadata`: a fresh zeroed 256-byte buffer,
the native write, then Go's `string(buf)` — the whole buffer, NUL padding
included. -/
def lookupMeta (env : MetaEnv) (key : String) : List UInt8 :=
  let written := (env.metaWrite key).take 256
  written ++ List.replicate (256 - written.length) 0

/-- The ten fixed metadata keys, in insertion order. -/
def metadataKeys : List String :=
  ["format", "encryption", "title", "author", "subject", "keywords",
   "creator", "producer", "creationDate", "modDate"]

/-- `Metadata()`: the map built from the ten fixed lookups (keys are
pairwise distinct, so the Go map is exactly this association list). -/
def Metadata (env : MetaEnv) : List (String × List UInt8) :=
  [("format", lookupMeta env "format"),
   ("encryption", lookupMeta env "encryption"),
   ("title", lookupMeta env "info:Title"),
   ("author", lookupMeta env "info:Author"),
   ("subject", lookupMeta env "info:Subject"),
   ("keywords", lookupMeta env "info:Keywords"),
   ("creator", lookupMeta env "info:Creator"),
   ("producer", lookupMeta env "info:Producer"),
   ("creationDate", lookupMeta env "info:CreationDate"),
   ("modDate", lookupMeta env "info:modDate")]

/-! ## ToC / outline -/

/-- The native `fz_outline` graph: `down` reaches children, `next` reaches
siblings; `α` carries the opaque `y` float payload. -/
inductive FzOutline (α : Type) where
  | nil : FzOutline α
  | node (title uri : String) (page : Int) (y : α)
      (down next : FzOutline α) : FzOutline α

/-- One flattened outline entry (`fitz.Outline`). -/
structure OutlineEntry (α : Type) where
  /-- Hierarchy level, 1 for roots. -/
  level : Int
  /-- Title of the outline item. -/
  title : String
  /-- Destination URI. -/
  uri : String
  /-- Page number of an internal link. -/
  page : Int
  /-- The `Top` float payload, carried opaquely. -/
  top : α
deriving DecidableEq, Repr

/-- The `walk` closure of `ToC`: emit the node, recurse through `down` with
`level+1`, iterate through `next`. -/
def walkOutline {α : Type} : FzOutline α → Int → List (OutlineEntry α)
  | .nil, _ => []
  | .node t u p y down next, level =>
    ⟨level, t, u, p, y⟩ :: (walkOutline down (level + 1) ++ walkOutline next level)

/-- `ToC()`: a nil root is `ErrLoadOutline`, otherwise the flattened walk
from level 1. -/
def ToC {α : Type} (o : FzOutline α) : Except GoErr (List (OutlineEntry α)) :=
  match o with
  | .nil => Except.error GoErr.loadOutline
  | o => Except.ok (walkOutline o 1)

/-- Spec-side rose tree: an outline item and its children. -/
inductive OutlineRose (α : Type) where
  | mk (title uri : String) (page : Int) (y : α)
      (children : List (OutlineRose α)) : OutlineRose α

/-- Read the `down`/`next` pointer graph as a forest of rose trees. -/
def toForest {α : Type} : FzOutline α → List (OutlineRose α)
  | .nil => []
  | .node t u p y down next => .mk t u p y (toForest down) :: toForest next

/-- Modelled from the spec: depth-first pre-order flattening of a forest,
`level` starting at the given value and incremented by exactly one per
parent-to-child edge, preserving document order. -/
def flattenForest {α : Type} (level : Int) : List (OutlineRose α) → List (OutlineEntry α)
  | [] => []
  | .mk t u p y children :: rest =>
    ⟨level, t, u, p, y⟩ ::
      (flattenForest (level + 1) children ++ flattenForest level rest)

/-! ## Version negotiation (dynamic-dispatch init) -/

/-- Oracle for version probing: whether `fz_new_context_imp` succeeds when
handed a given version string. -/
structure VerEnv where
  /-- Context creation succeeds for this version string. -/
  ctxOk : String → Bool

/-- Character-level `strings.Split(s, ".")`. -/
def splitDotsChars : List Char → List (List Char)
  | [] => [[]]
  | c :: t =>
    if c = '.' then [] :: splitDotsChars t
    else
      match splitDotsChars t with
      | h :: r => (c :: h) :: r
      | [] => [[c]]

/-- `strings.Split(s, ".")`. -/
def splitDots (s : String) : List String :=
  (splitDotsChars s.data).map List.asString

/-- `strings.Join(parts, ".")`. -/
def joinDots : List String → String
  | [] => ""
  | [s] => s
  | s :: t => s ++ "." ++ joinDots t

/-- The `v` of `version()`: the configured version with its last
dot-component removed (its major.minor part). -/
def majorMinor (fzVer : String) : String :=
  joinDots (splitDots fzVer).dropLast

/-- The probe loop of `version()` (`for x := 10; x >= 0; x--`): skip the
already-tried configured string, adopt the first version for which context
creation succeeds. -/
def probeVersion (env : VerEnv) (v fzVer : String) : Nat → Option String
  | 0 =>
    let ver := v ++ "." ++ Nat.repr 0
    if ver = fzVer then none
    else if env.ctxOk ver then some ver
    else none
  | x + 1 =>
    let ver := v ++ "." ++ Nat.repr (x + 1)
    if ver = fzVer then probeVersion env v fzVer x
    else if env.ctxOk ver then some ver
    else probeVersion env v fzVer x

/-- `version()`: keep the configured version if a context can be created
with it, otherwise probe nearby patch versions downward from 10; `""` when
every probe fails. -/
def version (env : VerEnv) (fzVer : String) : String :=
  if env.ctxOk fzVer then fzVer
  else (probeVersion env (majorMinor fzVer) fzVer 10).getD ""

/-- The tail of `init()`: adopt the negotiated version unless negotiation
gave up. -/
def initFzVersion (env : VerEnv) (fzVer : String) : String :=
  let ver := version env fzVer
  if ver ≠ "" then ver else fzVer

/-- Modelled from the spec: the probe candidates — same major.minor prefix,
patch decrementing from 10, the configured string skipped. -/
def versionCandidates (fzVer : String) : List String :=
  (((List.range 11).reverse).map
    (fun x => majorMinor fzVer ++ "." ++ Nat.repr x)).filter
    (fun ver => ver ≠ fzVer)

/-- Modelled from the spec: keep the configured version on success, else the
first candidate accepted by the native library, else `""`. -/
def versionSpec (env : VerEnv) (fzVer : String) : String :=
  if env.ctxOk fzVer then fzVer
  else ((versionCandidates fzVer).find? env.ctxOk).getD ""

/-! ## Helper lemmas -/

/-- The counting pass returns the node count of the native list. -/
theorem countLinks_eq_length (l : List String) : countLinks l = l.length := by
  induction l with
  | nil => rfl
  | cons _ t ih => simp [countLinks, ih]

/-- Copying exactly `countLinks l` nodes succeeds and reproduces the list's
URIs in order. -/
theorem copyLinks_countLinks (l : List String) :
    copyLinks (countLinks l) l = some l := by
  induction l with
  | nil => rfl
  | cons u t ih => simp [countLinks, copyLinks, ih]

/-- The metadata lookup buffer is always exactly 256 bytes long. -/
theorem lookupMeta_length (env : MetaEnv) (key : String) :
    (lookupMeta env key).length = 256 := by
  unfold lookupMeta
  rw [List.length_append, List.length_replicate]
  have h : ((env.metaWrite key).take 256).length ≤ 256 := by
    simp
  omega

/-- The code's pointer walk agrees with the spec's pre-order forest
flattening at every starting level. -/
theorem walkOutline_eq_flattenForest {α : Type} (o : FzOutline α) (level : Int) :
    walkOutline o level = flattenForest level (toForest o) := by
  induction o generalizing level with
  | nil => simp [walkOutline, toForest, flattenForest]
  | node t u p y down next ihd ihn =>
    simp [walkOutline, toForest, flattenForest, ihd, ihn]

/-! ## Concrete environments for witnesses and counterexamples -/

/-- A healthy one-page document environment. -/
def envC1 : FzEnv where
  ctxOk := true
  openMemoryOk := true
  openDocStreamOk := true
  needsPwd := false
  needsPwdNil := false
  numPage := 1
  loadPageOk := fun _ => true
  newPixmapOk := true
  samplesOk := true
  pageLinks := fun _ => []
  pageText := fun _ => ""
  pageHTML := fun _ _ => ""
  pageSVG := fun _ => ""
  pageBound := fun _ => (0, 0, 0, 0)
  pageImage := fun _ => []

/-- An environment whose native layer succeeds everywhere. -/
def envC2ok : FzEnv :=
  { envC1 with numPage := 0 }

/-- The same environment except `fz_open_memory` fails. -/
def envC2streamFail : FzEnv :=
  { envC2ok with openMemoryOk := false }

/-- A two-page document with two links on page 0. -/
def envC7 : FzEnv :=
  { envC1 with
      numPage := 2
      pageLinks := fun n => if n = 0 then ["http://a/", "http://b/"] else [] }

/-- A metadata environment for a document carrying no metadata values at
all: the native lookup writes nothing for any key. -/
def envC3 : MetaEnv where
  metaWrite := fun _ => []

/-! ## C1 -/

/-- C1 (amended): for every page index `n ≥ pageCount`, each page-level
operation (ImageDPI, ImagePNG, Text, HTML, SVG, Links, Bound) returns the
distinct page-missing error and performs no native page access.  The guard
is one-sided: negative indices are not covered (see the counterexample). -/
theorem C1_page_guard_upper (env : FzEnv) (n : Int) (dpi : ℚ) (header : Bool)
    (h : env.numPage ≤ n) :
    ImageDPI env n dpi = (Except.error GoErr.pageMissing, []) ∧
    ImagePNG env n dpi = (Except.error GoErr.pageMissing, []) ∧
    Text env n = (Except.error GoErr.pageMissing, []) ∧
    HTML env n header = (Except.error GoErr.pageMissing, []) ∧
    SVG env n = (Except.error GoErr.pageMissing, []) ∧
    Links env n = (Except.error GoErr.pageMissing, []) ∧
    Bound env n = (Except.error GoErr.pageMissing, []) := by
  refine ⟨?_, ?_, ?_, ?_, ?_, ?_, ?_⟩ <;>
    simp [ImageDPI, ImagePNG, Text, HTML, SVG, Links, Bound, ge_iff_le, h]

/-- C1 witness: a concrete over-range index on a one-page document. -/
theorem C1_page_guard_upper_witness :
    envC1.numPage ≤ 5 ∧ Text envC1 5 = (Except.error GoErr.pageMissing, []) :=
  ⟨by decide, (C1_page_guard_upper envC1 5 300 true (by decide)).2.2.1⟩

/-- C1 counterexample: on a one-page document the index `-1` violates
`0 ≤ n < pageCount`, yet `Text` does not return the page-missing error and
passes `-1` straight to the native `fz_load_page`. -/
theorem C1_counterexample :
    (Text envC1 (-1)).1 ≠ Except.error GoErr.pageMissing ∧
    (Text envC1 (-1)).2 = [-1] := by
  constructor
  · intro h
    exact Except.noConfusion ((rfl : (Text envC1 (-1)).1 = Except.ok "") ▸ h)
  · rfl

/-! ## C2 -/

/-- C2 (amended): a non-empty buffer the sniffer classifies as `""` makes
`NewFromMemory` fail with `ErrOpenMemory` — the very error value returned
when native memory-stream creation fails, so the two conditions are not
distinguishable by error value. -/
theorem C2_unrecognized_format_err (env : FzEnv) (b : List UInt8)
    (hb : b ≠ []) (hct : contentType b = "")
    (hctx : env.ctxOk = true) (hmem : env.openMemoryOk = true) :
    NewFromMemory env b = some GoErr.openMemory := by
  simp [NewFromMemory, hct, hctx, hmem, hb]

/-- C2 witness: the one-byte buffer `[0x25]` is non-empty and unclassified. -/
theorem C2_unrecognized_format_err_witness :
    ([(0x25 : UInt8)] ≠ [] ∧ contentType [(0x25 : UInt8)] = "" ∧
      envC2ok.ctxOk = true ∧ envC2ok.openMemoryOk = true) ∧
    NewFromMemory envC2ok [(0x25 : UInt8)] = some GoErr.openMemory :=
  ⟨⟨by decide, rfl, rfl, rfl⟩,
    C2_unrecognized_format_err envC2ok [(0x25 : UInt8)] (by decide) rfl rfl rfl⟩

/-- C2 counterexample: the unrecognized-format failure and the native
stream-creation failure return the same error value, so the claimed
distinguishability fails on the buffer `[0x25]`. -/
theorem C2_counterexample :
    [(0x25 : UInt8)].length ≠ 0 ∧
    contentType [(0x25 : UInt8)] = "" ∧
    NewFromMemory envC2ok [(0x25 : UInt8)] = some GoErr.openMemory ∧
    NewFromMemory envC2streamFail [(0x25 : UInt8)] = some GoErr.openMemory := by
  refine ⟨by decide, rfl, rfl, rfl⟩

/-! ## C8 -/

/-- C8: `NewFromMemory` on a zero-length buffer (Go's `nil` slice and empty
slice are both length 0, and the guard tests only the length) returns the
distinct `ErrEmptyBytes`, before any native call, in every environment. -/
theorem C8_empty_bytes (env : FzEnv) :
    NewFromMemory env [] = some GoErr.emptyBytes := by
  simp [NewFromMemory]

/-! ## C7 -/

/-- C7: for a valid page index whose native page load succeeds, `Links`
returns without error the URIs of the native link list, in list order, with
length equal to the node count; an empty native list yields an empty result
with no error. -/
theorem C7_links (env : FzEnv) (n : Int) (h0 : 0 ≤ n) (h1 : n < env.numPage)
    (hload : env.loadPageOk n = true) :
    Links env n = (Except.ok (env.pageLinks n), [n]) ∧
    (env.pageLinks n).length = countLinks (env.pageLinks n) := by
  have hguard : ¬ n ≥ env.numPage := by omega
  refine ⟨?_, (countLinks_eq_length _).symm⟩
  by_cases hz : countLinks (env.pageLinks n) = 0
  · have hnil : env.pageLinks n = [] := by
      have hL := countLinks_eq_length (env.pageLinks n)
      rw [hz] at hL
      exact List.length_eq_zero.mp hL.symm
    simp [Links, countLinks, hguard, hload, hnil]
  · simp [Links, hguard, hload, hz, copyLinks_countLinks]

/-- C7 witness: two links on page 0 of a two-page document. -/
theorem C7_links_witness :
    (0 ≤ (0 : Int) ∧ (0 : Int) < envC7.numPage ∧ envC7.loadPageOk 0 = true) ∧
    Links envC7 0 = (Except.ok ["http://a/", "http://b/"], [0]) :=
  ⟨⟨le_refl 0, by decide, rfl⟩, (C7_links envC7 0 (le_refl 0) (by decide) rfl).1⟩

/-! ## C3 -/

/-- C3 (amended): `Metadata` always returns exactly the ten fixed keys in
insertion order, each mapped to a string, never an error and never a partial
map — but every value is the raw 256-byte lookup buffer rendered as a
string (`string(buf)` keeps the NUL padding), so a missing key yields a
256-byte all-NUL string rather than the empty string. -/
theorem C3_metadata_total (env : MetaEnv) :
    (Metadata env).map Prod.fst = metadataKeys ∧
    ∀ p ∈ Metadata env, p.2.length = 256 := by
  refine ⟨rfl, ?_⟩
  intro p hp
  simp [Metadata] at hp
  rcases hp with h | h | h | h | h | h | h | h | h | h <;>
    rw [h] <;> exact lookupMeta_length env _

set_option maxRecDepth 8000 in
/-- C3 witness: the ten keys and the 256-byte value length at a concrete
environment and entry. -/
theorem C3_metadata_total_witness :
    (("title", List.replicate 256 (0 : UInt8)) ∈ Metadata envC3) ∧
    (Metadata envC3).map Prod.fst = metadataKeys ∧
    (("title", List.replicate 256 (0 : UInt8)) : String × List UInt8).2.length = 256 :=
  ⟨by decide,
    (C3_metadata_total envC3).1,
    (C3_metadata_total envC3).2 _ (by decide)⟩

set_option maxRecDepth 8000 in
/-- C3 counterexample: with no native metadata at all, the `title` entry is
the 256-byte all-NUL string, not the empty string the claim promises. -/
theorem C3_counterexample :
    ("title", List.replicate 256 (0 : UInt8)) ∈ Metadata envC3 ∧
    List.replicate 256 (0 : UInt8) ≠ ([] : List UInt8) := by
  exact ⟨by decide, by decide⟩

/-! ## C6 -/

/-- C6: a successful `ToC` is exactly the depth-first pre-order flattening
of the native outline forest (children via `down`, siblings via `next`),
in document order, with roots at level 1 and the level incremented by
exactly one per `down` edge. -/
theorem C6_toc_preorder {α : Type} (o : FzOutline α) (l : List (OutlineEntry α))
    (h : ToC o = Except.ok l) : l = flattenForest 1 (toForest o) := by
  cases o with
  | nil => simp [ToC] at h
  | node t u p y down next =>
    simp only [ToC] at h
    have h' : walkOutline (FzOutline.node t u p y down next) 1 = l := by
      injection h
    rw [← h', walkOutline_eq_flattenForest]

/-- A two-level outline fixture: `a` (child `a1`) then `b`. -/
def tocDemo : FzOutline Int :=
  .node "a" "u://a" 0 0
    (.node "a1" "u://a1" 1 0 .nil .nil)
    (.node "b" "u://b" 2 0 .nil .nil)

/-- C6 witness: the fixture flattens to `a` (level 1), `a1` (level 2), `b`
(level 1) — document order with parent/child nesting. -/
theorem C6_toc_preorder_witness :
    ToC tocDemo = Except.ok
      [⟨1, "a", "u://a", 0, 0⟩, ⟨2, "a1", "u://a1", 1, 0⟩, ⟨1, "b", "u://b", 2, 0⟩] ∧
    ([⟨1, "a", "u://a", 0, 0⟩, ⟨2, "a1", "u://a1", 1, 0⟩, ⟨1, "b", "u://b", 2, 0⟩] :
        List (OutlineEntry Int)) = flattenForest 1 (toForest tocDemo) :=
  ⟨rfl, C6_toc_preorder tocDemo _ rfl⟩

/-! ## C9 -/

/-- Monotone cursor advancement: every non-final step of the `isSVG`
machine consumes at least one byte. -/
theorem svgStep_more_length (ph : SvgPhase) (bs : List UInt8) (ph' : SvgPhase)
    (bs' : List UInt8) (h : svgStep ph bs = SvgOut.more ph' bs') :
    bs'.length < bs.length := by
  cases ph <;> cases bs <;>
    simp only [svgStep] at h <;>
    (try split_ifs at h) <;>
    (try exact SvgOut.noConfusion h) <;>
    (injection h with h1 h2; subst h2; simp)

/-- Fuel exceeding the remaining input always suffices. -/
theorem svgRun_isSome (n : Nat) : ∀ (ph : SvgPhase) (bs : List UInt8),
    bs.length < n → (svgRun n ph bs).isSome := by
  induction n with
  | zero => intro ph bs h; omega
  | succ k ih =>
    intro ph bs h
    cases hstep : svgStep ph bs with
    | done b => simp [svgRun, hstep]
    | more ph' bs' =>
      have hlt := svgStep_more_length ph bs ph' bs' hstep
      simp only [svgRun, hstep]
      exact ih ph' bs' (by omega)

/-- C9: `isSVG` terminates on every finite buffer: after the BOM strip, the
state machine run with fuel `length + 1` always yields an answer (the read
cursor advances monotonically, so it is bounded by end-of-buffer), and
`isSVG` returns exactly that answer. -/
theorem C9_isSVG_terminates (b : List UInt8) :
    ∃ r : Bool,
      svgRun ((svgStripBOM b).length + 1) SvgPhase.text (svgStripBOM b) = some r ∧
      isSVG b = r := by
  have h := svgRun_isSome ((svgStripBOM b).length + 1) SvgPhase.text (svgStripBOM b)
    (by omega)
  obtain ⟨r, hr⟩ := Option.isSome_iff_exists.mp h
  exact ⟨r, hr, by simp [isSVG, hr]⟩

/-! ## C4 -/

/-- The probe loop is first-success search over the decrementing candidate
list, the configured string excluded. -/
theorem probeVersion_eq_find (env : VerEnv) (v fzVer : String) (n : Nat) :
    probeVersion env v fzVer n =
      ((((List.range (n + 1)).reverse).map (fun x => v ++ "." ++ Nat.repr x)).filter
        (fun ver => ver ≠ fzVer)).find? env.ctxOk := by
  induction n with
  | zero =>
    by_cases h1 : (v ++ "." ++ Nat.repr 0) = fzVer
    · simp [probeVersion, List.range_succ, h1]
    · by_cases h2 : env.ctxOk (v ++ "." ++ Nat.repr 0) <;>
        simp [probeVersion, List.range_succ, List.filter_cons, h1, h2]
  | succ k ih =>
    by_cases h1 : (v ++ "." ++ Nat.repr (k + 1)) = fzVer
    · simp [probeVersion, List.range_succ, List.filter_cons, h1, ih]
    · by_cases h2 : env.ctxOk (v ++ "." ++ Nat.repr (k + 1)) <;>
        simp [probeVersion, List.range_succ, List.filter_cons, h1, h2, ih,
          List.find?_cons]

/-- C4: version negotiation keeps the configured version when context
creation succeeds with it; otherwise it probes exactly the candidates with
the same major.minor prefix, patch decrementing from 10 and the configured
string skipped, adopting the first success and giving up with `""`;
`init` then adopts the negotiated version unless negotiation gave up. -/
theorem C4_version_negotiation (env : VerEnv) (fzVer : String) :
    version env fzVer = versionSpec env fzVer ∧
    (∀ c ∈ versionCandidates fzVer,
      ∃ x ≤ 10, c = majorMinor fzVer ++ "." ++ Nat.repr x ∧ c ≠ fzVer) ∧
    initFzVersion env fzVer =
      (if versionSpec env fzVer = "" then fzVer else versionSpec env fzVer) := by
  have h1 : version env fzVer = versionSpec env fzVer := by
    unfold version versionSpec versionCandidates
    by_cases hc : env.ctxOk fzVer
    · simp [hc]
    · simp only [hc, if_false]
      rw [probeVersion_eq_find]
  refine ⟨h1, ?_, ?_⟩
  · intro c hc
    simp only [versionCandidates, List.mem_filter, List.mem_map,
      List.mem_reverse, List.mem_range] at hc
    obtain ⟨⟨x, hx, rfl⟩, hne⟩ := hc
    exact ⟨x, by omega, rfl, by simpa using hne⟩
  · unfold initFzVersion
    by_cases hz : versionSpec env fzVer = "" <;> simp [h1, hz]

/-- A native library that only accepts version `1.24.7`. -/
def envC4 : VerEnv where
  ctxOk := fun s => s == "1.24.7"

/-- C4 witness: configured `1.24.9` fails, the probe adopts `1.24.7`. -/
theorem C4_version_negotiation_witness :
    version envC4 "1.24.9" = "1.24.7" ∧ initFzVersion envC4 "1.24.9" = "1.24.7" := by
  have h := C4_version_negotiation envC4 "1.24.9"
  have hspec : versionSpec envC4 "1.24.9" = "1.24.7" := by decide
  refine ⟨?_, ?_⟩
  · rw [h.1, hspec]
  · rw [h.2.2, hspec]
    decide

/-! ## C5 -/

/-- The canonical 8-byte PNG signature. -/
def pngSignature : List UInt8 := [0x89, 0x50, 0x4E, 0x47, 0x0D, 0x0A, 0x1A, 0x0A]

/-- The EPUB first-entry marker at ZIP offset 30: the entry name `mimetype`
followed by its stored contents `application/epub+zip`. -/
def epubMimetypeMarker : List UInt8 :=
  [0x6D, 0x69, 0x6D, 0x65, 0x74, 0x79, 0x70, 0x65,
   0x61, 0x70, 0x70, 0x6C, 0x69, 0x63, 0x61, 0x74, 0x69, 0x6F, 0x6E, 0x2F,
   0x65, 0x70, 0x75, 0x62, 0x2B, 0x7A, 0x69, 0x70]

/-- A buffer whose first byte is not a BOM lead, not whitespace and not `<`
is rejected by `isSVG` in one step. -/
theorem isSVG_cons_of_head (c : UInt8) (t : List UInt8)
    (hbom : (c == 0xEF) = false)
    (hws : (c == 0x09 || c == 0x0A || c == 0x0D || c == 0x20) = false)
    (hlt : (c == 0x3C) = false) :
    isSVG (c :: t) = false := by
  have h0 : byteAt (c :: t) 0 = c := by simp [byteAt]
  have hstrip : svgStripBOM (c :: t) = c :: t := by
    unfold svgStripBOM
    rw [h0, hbom]
    simp
  have hstep : svgStep SvgPhase.text (c :: t) = SvgOut.done false := by
    simp [svgStep, hws, hlt]
  have hrun : svgRun ((c :: t).length + 1) SvgPhase.text (c :: t) = some false := by
    rw [show svgRun ((c :: t).length + 1) SvgPhase.text (c :: t) =
        (match svgStep SvgPhase.text (c :: t) with
          | .done b => some b
          | .more ph bs => svgRun ((c :: t).length) ph bs) from rfl, hstep]
  unfold isSVG
  rw [hstrip]
  show (svgRun ((c :: t).length + 1) SvgPhase.text (c :: t)).getD false = false
  rw [hrun]
  rfl

/-- A ZIP whose first-entry name at offset 30 matches none of the OOXML
markers is not claimed by `msooxml`. -/
theorem msooxml_of_first_checks (buf : List UInt8)
    (hw : compareBytes buf wordSlash 0x1E = false)
    (hp : compareBytes buf pptSlash 0x1E = false)
    (hx : compareBytes buf xlSlash 0x1E = false)
    (hct : compareBytes buf contentTypesXml 0x1E = false)
    (hr1 : compareBytes buf relsDotRels 0x1E = false)
    (hdp : compareBytes buf docProps 0x1E = false)
    (hr2 : compareBytes buf relsDir 0x1E = false) :
    msooxml buf = (DocType.zero, false) := by
  have hck : checkMSOoml buf 0x1E = (DocType.zero, false) := by
    unfold checkMSOoml
    rw [hw, hp, hx]
    simp
  unfold msooxml
  rw [hck, hct, hr1, hdp, hr2]
  simp

/-- C5 counterexample: the buffer that is exactly the canonical 8-byte PNG
signature begins with PNG's magic, yet classifies as `""`, not
`"image/png"` — the length thresholds cut in first. -/
theorem C5_counterexample :
    contentType pngSignature = "" ∧ ("" : String) ≠ "image/png" :=
  ⟨rfl, by decide⟩

/-- C5 (amended): buffers beginning with a format's canonical magic classify
to its documented MIME string once they are long enough to reach the
format's check (64 bytes for PDF/PNG and the ZIP family, 8 for GIF);
below the threshold the sniffer answers `""`.  The EPUB case holds for an
arbitrary 26-byte remainder of the ZIP local file header and arbitrary
contents after the marker. -/
theorem C5_magic_classification :
    (∀ rest : List UInt8, 60 ≤ rest.length →
      contentType (0x25 :: 0x50 :: 0x44 :: 0x46 :: rest) = "application/pdf") ∧
    (∀ rest : List UInt8, 56 ≤ rest.length →
      contentType (0x89 :: 0x50 :: 0x4E :: 0x47 :: 0x0D :: 0x0A :: 0x1A :: 0x0A :: rest) =
        "image/png") ∧
    (∀ rest : List UInt8, 4 ≤ rest.length →
      contentType (0x47 :: 0x49 :: 0x46 :: 0x38 :: rest) = "image/gif") ∧
    (∀ (m0 m1 m2 m3 m4 m5 m6 m7 m8 m9 m10 m11 m12 m13 m14 m15 m16 m17 m18 m19
        m20 m21 m22 m23 m24 m25 : UInt8) (rest : List UInt8), 6 ≤ rest.length →
      contentType (0x50 :: 0x4B :: 0x03 :: 0x04 ::
          m0 :: m1 :: m2 :: m3 :: m4 :: m5 :: m6 :: m7 :: m8 :: m9 :: m10 :: m11 ::
          m12 :: m13 :: m14 :: m15 :: m16 :: m17 :: m18 :: m19 :: m20 :: m21 :: m22 ::
          m23 :: m24 :: m25 :: (epubMimetypeMarker ++ rest)) = "application/epub+zip") := by
  refine ⟨?_, ?_, ?_, ?_⟩
  · -- PDF
    intro rest hrest
    set b : List UInt8 := 0x25 :: 0x50 :: 0x44 :: 0x46 :: rest with hb
    have hlen : b.length = rest.length + 4 := by simp [hb]
    have h8 : ¬ b.length < 8 := by omega
    have h16 : ¬ b.length < 16 := by omega
    have h32 : ¬ b.length < 32 := by omega
    have h64 : ¬ b.length < 64 := by omega
    have hsvg : isSVG b = false := by
      rw [hb]; exact isSVG_cons_of_head _ _ (by decide) (by decide) (by decide)
    have h01 : isPAM b = false := by simp [hb, isPAM, byteAt]
    have h02 : isPBM b = false := by simp [hb, isPBM, byteAt]
    have h03 : isPFM b = false := by simp [hb, isPFM, byteAt]
    have h04 : isPGM b = false := by simp [hb, isPGM, byteAt]
    have h05 : isPPM b = false := by simp [hb, isPPM, byteAt]
    have h06 : isGIF b = false := by simp [hb, isGIF, byteAt]
    have h07 : isBMP b = false := by simp [hb, isBMP, byteAt]
    have h08 : isJBIG2 b = false := by simp [hb, isJBIG2, byteAt]
    have h09 : isTIFF b = false := by simp [hb, isTIFF, byteAt]
    have h10 : isJPEG b = false := by simp [hb, isJPEG, byteAt]
    have h11 : isPNG b = false := by simp [hb, isPNG, byteAt]
    have h12 : isJPEG2000 b = false := by simp [hb, isJPEG2000, byteAt]
    have h13 : isJPEGXR b = false := by simp [hb, isJPEGXR, byteAt]
    have h14 : isPDF b = true := by simp [hb, isPDF, byteAt]
    simp [contentType, h8, h16, h32, h64, hsvg,
      h01, h02, h03, h04, h05, h06, h07, h08, h09, h10, h11, h12, h13, h14]
  · -- PNG
    intro rest hrest
    set b : List UInt8 := 0x89 :: 0x50 :: 0x4E :: 0x47 :: 0x0D :: 0x0A :: 0x1A :: 0x0A :: rest
      with hb
    have hlen : b.length = rest.length + 8 := by simp [hb]
    have h8 : ¬ b.length < 8 := by omega
    have h16 : ¬ b.length < 16 := by omega
    have h32 : ¬ b.length < 32 := by omega
    have h64 : ¬ b.length < 64 := by omega
    have hsvg : isSVG b = false := by
      rw [hb]; exact isSVG_cons_of_head _ _ (by decide) (by decide) (by decide)
    have h01 : isPAM b = false := by simp [hb, isPAM, byteAt]
    have h02 : isPBM b = false := by simp [hb, isPBM, byteAt]
    have h03 : isPFM b = false := by simp [hb, isPFM, byteAt]
    have h04 : isPGM b = false := by simp [hb, isPGM, byteAt]
    have h05 : isPPM b = false := by simp [hb, isPPM, byteAt]
    have h06 : isGIF b = false := by simp [hb, isGIF, byteAt]
    have h07 : isBMP b = false := by simp [hb, isBMP, byteAt]
    have h08 : isJBIG2 b = false := by simp [hb, isJBIG2, byteAt]
    have h09 : isTIFF b = false := by simp [hb, isTIFF, byteAt]
    have h10 : isJPEG b = false := by simp [hb, isJPEG, byteAt]
    have h11 : isPNG b = true := by simp [hb, isPNG, byteAt]
    simp [contentType, h8, h16, h32, h64, hsvg,
      h01, h02, h03, h04, h05, h06, h07, h08, h09, h10, h11]
  · -- GIF
    intro rest hrest
    set b : List UInt8 := 0x47 :: 0x49 :: 0x46 :: 0x38 :: rest with hb
    have hlen : b.length = rest.length + 4 := by simp [hb]
    have h8 : ¬ b.length < 8 := by omega
    have h01 : isPAM b = false := by simp [hb, isPAM, byteAt]
    have h02 : isPBM b = false := by simp [hb, isPBM, byteAt]
    have h03 : isPFM b = false := by simp [hb, isPFM, byteAt]
    have h04 : isPGM b = false := by simp [hb, isPGM, byteAt]
    have h05 : isPPM b = false := by simp [hb, isPPM, byteAt]
    have h06 : isGIF b = true := by simp [hb, isGIF, byteAt]
    simp [contentType, h8, h01, h02, h03, h04, h05, h06]
  · -- EPUB
    intro m0 m1 m2 m3 m4 m5 m6 m7 m8 m9 m10 m11 m12 m13 m14 m15 m16 m17 m18 m19
      m20 m21 m22 m23 m24 m25 rest hrest
    set b : List UInt8 := 0x50 :: 0x4B :: 0x03 :: 0x04 ::
        m0 :: m1 :: m2 :: m3 :: m4 :: m5 :: m6 :: m7 :: m8 :: m9 :: m10 :: m11 ::
        m12 :: m13 :: m14 :: m15 :: m16 :: m17 :: m18 :: m19 :: m20 :: m21 :: m22 ::
        m23 :: m24 :: m25 :: (epubMimetypeMarker ++ rest) with hb
    have hlen : b.length = rest.length + 58 := by
      rw [hb]
      simp only [epubMimetypeMarker, List.length_cons, List.length_append, List.length_nil]
      omega
    have h8 : ¬ b.length < 8 := by omega
    have h16 : ¬ b.length < 16 := by omega
    have h32 : ¬ b.length < 32 := by omega
    have h64 : ¬ b.length < 64 := by omega
    have hsvg : isSVG b = false := by
      rw [hb]; exact isSVG_cons_of_head _ _ (by decide) (by decide) (by decide)
    have hdrop : b.drop 30 = epubMimetypeMarker ++ rest := by
      rw [hb]
      rfl
    have hcmp : ∀ sub : List UInt8, sub.length ≤ 28 →
        compareBytes b sub 0x1E = (sub == epubMimetypeMarker.take sub.length) := by
      intro sub hsub
      have hguard : ¬ ((0x1E : Int) + (sub.length : Int) > (b.length : Int)) := by
        rw [hlen]; push_cast; omega
      unfold compareBytes
      show (if (0x1E : Int) + (sub.length : Int) > (b.length : Int) then false
        else sub == ((b.drop ((0x1E : Int)).toNat).take sub.length)) =
          (sub == epubMimetypeMarker.take sub.length)
      rw [if_neg hguard]
      rw [show ((0x1E : Int)).toNat = 30 from rfl, hdrop, List.take_append_eq_append_take,
        show sub.length - epubMimetypeMarker.length = 0 from by
          simp [epubMimetypeMarker]; omega]
      simp
    have hmso : msooxml b = (DocType.zero, false) :=
      msooxml_of_first_checks b
        (by rw [hcmp wordSlash (by decide)]; decide)
        (by rw [hcmp pptSlash (by decide)]; decide)
        (by rw [hcmp xlSlash (by decide)]; decide)
        (by rw [hcmp contentTypesXml (by decide)]; decide)
        (by rw [hcmp relsDotRels (by decide)]; decide)
        (by rw [hcmp docProps (by decide)]; decide)
        (by rw [hcmp relsDir (by decide)]; decide)
    have h01 : isPAM b = false := by simp [hb, isPAM, byteAt]
    have h02 : isPBM b = false := by simp [hb, isPBM, byteAt]
    have h03 : isPFM b = false := by simp [hb, isPFM, byteAt]
    have h04 : isPGM b = false := by simp [hb, isPGM, byteAt]
    have h05 : isPPM b = false := by simp [hb, isPPM, byteAt]
    have h06 : isGIF b = false := by simp [hb, isGIF, byteAt]
    have h07 : isBMP b = false := by simp [hb, isBMP, byteAt]
    have h08 : isJBIG2 b = false := by simp [hb, isJBIG2, byteAt]
    have h09 : isTIFF b = false := by simp [hb, isTIFF, byteAt]
    have h10 : isJPEG b = false := by simp [hb, isJPEG, byteAt]
    have h11 : isPNG b = false := by simp [hb, isPNG, byteAt]
    have h12 : isJPEG2000 b = false := by simp [hb, isJPEG2000, byteAt]
    have h13 : isJPEGXR b = false := by simp [hb, isJPEGXR, byteAt]
    have h14 : isPDF b = false := by simp [hb, isPDF, byteAt]
    have h15 : isPSD b = false := by simp [hb, isPSD, byteAt]
    have h16z : isZIP b = true := by simp [hb, isZIP, byteAt]
    have hdocx : isDOCX b = false := by simp [isDOCX, hmso]
    have hxlsx : isXLSX b = false := by simp [isXLSX, hmso]
    have hpptx : isPPTX b = false := by simp [isPPTX, hmso]
    have hepub : isEPUB b = true := by
      simp [hb, isEPUB, byteAt, epubMimetypeMarker]
    simp [contentType, h8, h16, h32, h64, hsvg,
      h01, h02, h03, h04, h05, h06, h07, h08, h09, h10, h11, h12, h13, h14, h15,
      h16z, hdocx, hxlsx, hpptx, hepub]

/-- C5 witness: a PDF-magic buffer of total length 64 classifies as PDF. -/
theorem C5_magic_classification_witness :
    60 ≤ (List.replicate 60 (0 : UInt8)).length ∧
    contentType (0x25 :: 0x50 :: 0x44 :: 0x46 :: List.replicate 60 (0 : UInt8)) =
      "application/pdf" :=
  ⟨by simp, (C5_magic_classification).1 (List.replicate 60 0) (by simp)⟩

/-! ## C10: agreement of the instrumented sniffer with the plain one -/

/-- A guard on an in-bounds index succeeds. -/
theorem guarded_eq {b : List UInt8} {m : Nat} (h : m < b.length) (v : Bool) :
    guarded b m v = some v := by
  simp [guarded, List.getElem?_eq_getElem h]

/-- A continuation guard on an in-bounds index is transparent. -/
theorem guardIdx_eq {α : Type} {b : List UInt8} {m : Nat} (h : m < b.length)
    (k : Option α) : guardIdx b m k = k := by
  unfold guardIdx
  rw [List.getElem?_eq_getElem h]
  rfl

/-- `compareBytesC` agrees with `compareBytes` on non-negative offsets. -/
theorem compareBytesC_eq (slice sub : List UInt8) (off : Int) (h : 0 ≤ off) :
    compareBytesC slice sub off = some (compareBytes slice sub off) := by
  simp only [compareBytesC, compareBytes]
  split_ifs with h1 h2
  · rfl
  · omega
  · rfl

/-- `searchC` agrees with `search` on non-negative starts. -/
theorem searchC_eq (buf : List UInt8) (start rangeNum : Int) (h : 0 ≤ start) :
    searchC buf start rangeNum = some (search buf start rangeNum) := by
  simp only [searchC, search]
  split_ifs <;> first | rfl | omega

/-- The scan cursor only returns `-1` or a non-negative index. -/
theorem bytesIndexGo_nonneg (needle : List UInt8) :
    ∀ (l : List UInt8) (i : Nat),
      bytesIndex.go needle l i = -1 ∨ 0 ≤ bytesIndex.go needle l i := by
  intro l
  induction l with
  | nil =>
    intro i
    by_cases h : needle.isEmpty <;> simp [bytesIndex.go, h]
  | cons c t ih =>
    intro i
    by_cases h : needle.isPrefixOf (c :: t)
    · right
      simp [bytesIndex.go, h]
    · simpa [bytesIndex.go, h] using ih (i + 1)

/-- `bytes.Index` only returns `-1` or a non-negative index. -/
theorem bytesIndex_nonneg (hay needle : List UInt8) :
    bytesIndex hay needle = -1 ∨ 0 ≤ bytesIndex hay needle := by
  simpa [bytesIndex] using bytesIndexGo_nonneg needle hay 0

/-- `search` only returns `-1` or a non-negative index. -/
theorem search_nonneg (buf : List UInt8) (start rangeNum : Int) :
    search buf start rangeNum = -1 ∨ 0 ≤ search buf start rangeNum := by
  simp only [search]
  split_ifs <;> first | (left; rfl) | exact bytesIndex_nonneg _ _

/-- `checkMSOomlC` agrees with `checkMSOoml` on non-negative offsets. -/
theorem checkMSOomlC_eq (buf : List UInt8) (off : Int) (h : 0 ≤ off) :
    checkMSOomlC buf off = some (checkMSOoml buf off) := by
  unfold checkMSOomlC checkMSOoml
  rw [compareBytesC_eq buf wordSlash off h]
  simp only [Option.some_bind]
  rw [compareBytesC_eq buf pptSlash off h]
  simp only [Option.some_bind]
  rw [compareBytesC_eq buf xlSlash off h]
  simp only [Option.some_bind]
  split_ifs <;> rfl

/-- `msooxmlFourthC` agrees with `msooxmlFourth` on non-negative offsets. -/
theorem msooxmlFourthC_eq (buf : List UInt8) (so : Int) (h : 0 ≤ so) :
    msooxmlFourthC buf so = some (msooxmlFourth buf so) := by
  unfold msooxmlFourthC msooxmlFourth
  rw [checkMSOomlC_eq buf so h]
  simp only [Option.some_bind]
  by_cases hr : (checkMSOoml buf so).2
  · rw [if_pos hr, if_pos hr]
  · rw [if_neg hr, if_neg hr]

/-- `msooxmlThirdC` agrees with `msooxmlThird` on non-negative offsets. -/
theorem msooxmlThirdC_eq (buf : List UInt8) (so : Int) (h : 0 ≤ so) :
    msooxmlThirdC buf so = some (msooxmlThird buf so) := by
  unfold msooxmlThirdC msooxmlThird
  rw [checkMSOomlC_eq buf so h]
  simp only [Option.some_bind]
  by_cases hr : (checkMSOoml buf so).2
  · rw [if_pos hr, if_pos hr]
  · rw [if_neg hr, if_neg hr]
    rw [searchC_eq buf (so + 26) 6000 (by omega)]
    simp only [Option.some_bind]
    by_cases hidx : search buf (so + 26) 6000 = -1
    · rw [if_pos hidx, if_pos hidx]
    · rw [if_neg hidx, if_neg hidx]
      have hnn : 0 ≤ search buf (so + 26) 6000 := by
        rcases search_nonneg buf (so + 26) 6000 with hc | hc
        · exact absurd hc hidx
        · exact hc
      exact msooxmlFourthC_eq buf _ (by omega)

/-- `msooxmlScanC` agrees with `msooxmlScan` on non-negative offsets. -/
theorem msooxmlScanC_eq (buf : List UInt8) (so : Int) (h : 0 ≤ so) :
    msooxmlScanC buf so = some (msooxmlScan buf so) := by
  unfold msooxmlScanC msooxmlScan
  rw [searchC_eq buf so 6000 h]
  simp only [Option.some_bind]
  by_cases hidx1 : search buf so 6000 = -1
  · rw [if_pos hidx1, if_pos hidx1]
  · rw [if_neg hidx1, if_neg hidx1]
    have hnn1 : 0 ≤ search buf so 6000 := by
      rcases search_nonneg buf so 6000 with hc | hc
      · exact absurd hc hidx1
      · exact hc
    rw [searchC_eq buf (so + search buf so 6000 + 4 + 26) 6000 (by omega)]
    simp only [Option.some_bind]
    by_cases hidx2 : search buf (so + search buf so 6000 + 4 + 26) 6000 = -1
    · rw [if_pos hidx2, if_pos hidx2]
    · rw [if_neg hidx2, if_neg hidx2]
      have hnn2 : 0 ≤ search buf (so + search buf so 6000 + 4 + 26) 6000 := by
        rcases search_nonneg buf (so + search buf so 6000 + 4 + 26) 6000 with hc | hc
        · exact absurd hc hidx2
        · exact hc
      exact msooxmlThirdC_eq buf _ (by omega)

/-- `msooxmlC` agrees with `msooxml` once the buffer covers the
`buf[18:22]` read (always the case under the sniffer's 64-byte guard). -/
theorem msooxmlC_eq (buf : List UInt8) (h : 22 ≤ buf.length) :
    msooxmlC buf = some (msooxml buf) := by
  unfold msooxmlC msooxml
  rw [checkMSOomlC_eq buf 0x1E (by norm_num)]
  simp only [Option.some_bind]
  by_cases hf : (checkMSOoml buf 0x1E).2
  · rw [if_pos hf, if_pos hf]
  · rw [if_neg hf, if_neg hf]
    rw [compareBytesC_eq buf contentTypesXml 0x1E (by norm_num)]
    simp only [Option.some_bind]
    rw [compareBytesC_eq buf relsDotRels 0x1E (by norm_num)]
    simp only [Option.some_bind]
    rw [compareBytesC_eq buf docProps 0x1E (by norm_num)]
    simp only [Option.some_bind]
    rw [compareBytesC_eq buf relsDir 0x1E (by norm_num)]
    simp only [Option.some_bind]
    by_cases hguard : ¬ compareBytes buf contentTypesXml 0x1E ∧
        ¬ compareBytes buf relsDotRels 0x1E ∧ ¬ compareBytes buf docProps 0x1E ∧
        ¬ compareBytes buf relsDir 0x1E
    · rw [if_pos hguard, if_pos hguard]
    · rw [if_neg hguard, if_neg hguard]
      rw [guardIdx_eq (by omega : 21 < buf.length)]
      exact msooxmlScanC_eq buf _ (Int.natCast_nonneg _)

/-- Stepping lemma: a resolved instrumented test and a resolved tail give a
resolved `orElseC` node. -/
theorem orElseC_eq {test : Option Bool} {c : Bool} {n : Option String} {n' y : String}
    (ht : test = some c) (hn : n = some n') :
    orElseC test y n = some (if c then y else n') := by
  subst ht
  subst hn
  cases c <;> rfl

/-- Stepping lemma: a length cutoff that fires resolves both sniffers to
`""` regardless of the tails. -/
theorem cutoff_pos {P : Prop} [Decidable P] {s m : String} {n : Option String}
    (hP : P) : (if P then some s else n) = some (if P then s else m) := by
  rw [if_pos hP, if_pos hP]

/-- Stepping lemma: a length cutoff that does not fire passes through to the
resolved tails. -/
theorem cutoff_neg {P : Prop} [Decidable P] {s : String} {n : Option String}
    {n' : String} (hP : ¬ P) (hn : n = some n') :
    (if P then some s else n) = some (if P then s else n') := by
  rw [if_neg hP, if_neg hP, hn]

/-- Stepping lemma for the ZIP fork of the sniffer. -/
theorem bindCond_eq {test : Option Bool} {c : Bool} {a n : Option String}
    {a' n' : String} (ht : test = some c) (ha : a = some a') (hn : n = some n') :
    (test.bind fun x => cond x a n) = some (if c then a' else n') := by
  subst ht
  subst ha
  subst hn
  cases c <;> rfl

/-- C10: on every byte slice whatsoever, the bounds-instrumented sniffer
completes without any out-of-bounds access (`none` never arises) and returns
exactly the plain sniffer's classification: each predicate is reached only
under the length threshold covering its highest read, or carries its own
bound check. -/
theorem C10_sniffer_inbounds (b : List UInt8) :
    contentTypeC b = some (contentType b) := by
  unfold contentTypeC contentType
  by_cases h8 : b.length < 8
  · simp [h8]
  · have e01 : isPAMc b = some (isPAM b) := by
      unfold isPAMc; exact guarded_eq (by omega) _
    have e02 : isPBMc b = some (isPBM b) := by
      unfold isPBMc; exact guarded_eq (by omega) _
    have e03 : isPFMc b = some (isPFM b) := by
      unfold isPFMc; exact guarded_eq (by omega) _
    have e04 : isPGMc b = some (isPGM b) := by
      unfold isPGMc; exact guarded_eq (by omega) _
    have e05 : isPPMc b = some (isPPM b) := by
      unfold isPPMc; exact guarded_eq (by omega) _
    have e06 : isGIFc b = some (isGIF b) := by
      unfold isGIFc; exact guarded_eq (by omega) _
    by_cases h16 : b.length < 16
    · exact cutoff_neg h8 (orElseC_eq e01 (orElseC_eq e02 (orElseC_eq
        e03 (orElseC_eq e04 (orElseC_eq e05 (orElseC_eq e06 (cutoff_pos
        h16)))))))
    · have e07 : isBMPc b = some (isBMP b) := by
        unfold isBMPc; exact guarded_eq (by omega) _
      have e08 : isJBIG2c b = some (isJBIG2 b) := by
        unfold isJBIG2c; exact guarded_eq (by omega) _
      by_cases h32 : b.length < 32
      · exact cutoff_neg h8 (orElseC_eq e01 (orElseC_eq e02 (orElseC_eq
          e03 (orElseC_eq e04 (orElseC_eq e05 (orElseC_eq e06
          (cutoff_neg h16 (orElseC_eq e07 (orElseC_eq e08 (cutoff_pos
          h32))))))))))
      · have e09 : isTIFFc b = some (isTIFF b) := by
          unfold isTIFFc; exact guarded_eq (by omega) _
        have e10 : isSVGc b = some (isSVG b) := by
          unfold isSVGc; exact guarded_eq (by omega) _
        by_cases h64 : b.length < 64
        · exact cutoff_neg h8 (orElseC_eq e01 (orElseC_eq e02
            (orElseC_eq e03 (orElseC_eq e04 (orElseC_eq e05 (orElseC_eq
            e06 (cutoff_neg h16 (orElseC_eq e07 (orElseC_eq e08
            (cutoff_neg h32 (orElseC_eq e09 (orElseC_eq e10 (cutoff_pos
            h64)))))))))))))
        · have e11 : isJPEGc b = some (isJPEG b) := by
            unfold isJPEGc; exact guarded_eq (by omega) _
          have e12 : isPNGc b = some (isPNG b) := by
            unfold isPNGc; exact guarded_eq (by omega) _
          have e13 : isJPEG2000c b = some (isJPEG2000 b) := by
            unfold isJPEG2000c; exact guarded_eq (by omega) _
          have e14 : isJPEGXRc b = some (isJPEGXR b) := by
            unfold isJPEGXRc; exact guarded_eq (by omega) _
          have e15 : isPDFc b = some (isPDF b) := by
            unfold isPDFc; exact guarded_eq (by omega) _
          have e16 : isPSDc b = some (isPSD b) := by
            unfold isPSDc; exact guarded_eq (by omega) _
          have e17 : isZIPc b = some (isZIP b) := by
            unfold isZIPc; exact guarded_eq (by omega) _
          have eE : isEPUBc b = some (isEPUB b) := by
            unfold isEPUBc; exact guarded_eq (by omega) _
          have eXPS : isXPSc b = some (isXPS b) := by
            unfold isXPSc; exact guarded_eq (by omega) _
          have e18 : isXMLc b = some (isXML b) := by
            unfold isXMLc; exact guarded_eq (by omega) _
          have eMSO : msooxmlC b = some (msooxml b) := msooxmlC_eq b (by omega)
          have eD : isDOCXc b = some (isDOCX b) := by
            unfold isDOCXc
            rw [eMSO]
            rfl
          have eXL : isXLSXc b = some (isXLSX b) := by
            unfold isXLSXc
            rw [eMSO]
            rfl
          have eP : isPPTXc b = some (isPPTX b) := by
            unfold isPPTXc
            rw [eMSO]
            rfl
          have e19 : isMOBIc b = some (isMOBI b) := by
            unfold isMOBIc
            by_cases h78 : b.length < 78
            · rw [if_pos h78]
              unfold isMOBI
              rw [if_pos h78]
            · rw [if_neg h78]
              exact guarded_eq (by omega) _
          have hzip : zipKindC b = some
              (if isDOCX b then
                "application/vnd.openxmlformats-officedocument.wordprocessingml.document"
              else if isXLSX b then
                "application/vnd.openxmlformats-officedocument.spreadsheetml.sheet"
              else if isPPTX b then
                "application/vnd.openxmlformats-officedocument.presentationml.presentation"
              else if isEPUB b then "application/epub+zip"
              else if isXPS b then "application/oxps"
              else "application/zip") := by
            unfold zipKindC
            exact orElseC_eq eD (orElseC_eq eXL (orElseC_eq eP (orElseC_eq eE
              (orElseC_eq eXPS rfl))))
          exact cutoff_neg h8 (orElseC_eq e01 (orElseC_eq e02 (orElseC_eq
            e03 (orElseC_eq e04 (orElseC_eq e05 (orElseC_eq e06
            (cutoff_neg h16 (orElseC_eq e07 (orElseC_eq e08 (cutoff_neg
            h32 (orElseC_eq e09 (orElseC_eq e10 (cutoff_neg h64
            (orElseC_eq e11 (orElseC_eq e12 (orElseC_eq e13 (orElseC_eq
            e14 (orElseC_eq e15 (orElseC_eq e16 (bindCond_eq e17 hzip
            (orElseC_eq e18 (orElseC_eq e19 (rfl)))))))))))))))))))))))

end GoFitz
